import Mathlib

/-!
Verification of the plugin lifecycle manager in
`pagermaid/common/plugin.py` (PagerMaid-Pyro).

Shallow embedding conventions:
* The plugin directory is an association list `Dir := List (String × String)`
  from file name (within the `plugins` directory) to file content.
  `os.listdir` is the list of keys in order; `os.path.exists` is key presence.
* `os.remove` / `os.rename` are modelled as `Except Unit Dir` computations:
  `.error ()` stands for the raised `FileNotFoundError` when the source path
  is missing.  `os.rename` follows POSIX semantics (an existing destination
  is silently overwritten), the platform the program runs on.
* Version numbers (Python floats produced by `json.load` and the catalog)
  are modelled as `ℚ`; the values the program manipulates (`0.0`, `1.0`,
  `2.0`, comparisons with `<` and `== 0.0`) are exact in both types.
  A stored JSON `null` (the field is `Optional[float]`) is `Option ℚ`,
  so the ledger maps names to `Option ℚ`.
* Python truthiness on an `Optional[float]` (`if x := ...`) is:
  falsy for `None` and for `0.0`, truthy otherwise.
* The persisted `version.json` file is the `ledgerFile : Option (List (String × Option ℚ))`
  component of `World` (`none` = file absent).
-/

namespace PagerMaid

/-- The plugin directory: file name ↦ file content. -/
abbrev Dir := List (String × String)

/-- Ledger / version maps: plugin name ↦ stored version (a JSON number or null). -/
abbrev VMap := List (String × Option ℚ)

/-- `plugins/<name>.py` — the active (loaded) form of a plugin file. -/
def activeName (name : String) : String := name ++ ".py"

/-- `plugins/<name>.py.disabled` — the disabled form of a plugin file. -/
def disabledName (name : String) : String := name ++ ".py.disabled"

/-- Remove every binding of key `k` from an association list
(the effect of deleting the file / popping the dict key). -/
def eraseKey (l : List (String × α)) (k : String) : List (String × α) :=
  l.filter (fun kv => kv.1 ≠ k)

/-- Bind key `k` to `v` (dict assignment / file write, overwriting). -/
def setKey (l : List (String × α)) (k : String) (v : α) : List (String × α) :=
  (k, v) :: eraseKey l k

/-- `os.remove`: delete the file, `FileNotFoundError` if it does not exist. -/
def os_remove (dir : Dir) (p : String) : Except Unit Dir :=
  match dir.lookup p with
  | some _ => .ok (eraseKey dir p)
  | none => .error ()

/-- `os.rename` (POSIX): move `src` to `dst`, overwriting `dst` if present;
`FileNotFoundError` if `src` does not exist. -/
def os_rename (dir : Dir) (src dst : String) : Except Unit Dir :=
  match dir.lookup src with
  | some c => .ok (setKey (eraseKey dir src) dst c)
  | none => .error ()

/-- `try: ...; return True / except Exception: return False` around a
filesystem action: the exception is converted to a boolean failure and the
directory is left as it was. -/
def tryBool (act : Except Unit Dir) (dir : Dir) : Bool × Dir :=
  match act with
  | .ok d => (true, d)
  | .error _ => (false, dir)

/-- `with contextlib.suppress(FileNotFoundError): act` — a failed action
leaves the directory unchanged. -/
def suppressFNF (act : Except Unit Dir) (dir : Dir) : Dir :=
  match act with
  | .ok d => d
  | .error _ => dir

/-- `LocalPlugin` (pydantic model): one local plugin record. -/
structure LocalPlugin where
  name : String
  status : Bool
  installed : Bool := false
  version : Option ℚ
deriving DecidableEq, Repr

/-- `LocalPlugin.remove`: delete the active file, then the disabled file,
each with `FileNotFoundError` suppressed. -/
def LocalPlugin.removeFiles (name : String) (dir : Dir) : Dir :=
  let d1 := suppressFNF (os_remove dir (activeName name)) dir
  suppressFNF (os_remove d1 (disabledName name)) d1

/-- `LocalPlugin.enable`: rename the disabled path to the active path;
any exception becomes `false`. -/
def LocalPlugin.enable (name : String) (dir : Dir) : Bool × Dir :=
  tryBool (os_rename dir (disabledName name) (activeName name)) dir

/-- `LocalPlugin.disable`: rename the active path to the disabled path;
any exception becomes `false`. -/
def LocalPlugin.disable (name : String) (dir : Dir) : Bool × Dir :=
  tryBool (os_rename dir (activeName name) (disabledName name)) dir

/-- `RemotePlugin(LocalPlugin)`: catalog record with descriptive metadata. -/
structure RemotePlugin extends LocalPlugin where
  «section» : String
  maintainer : String
  size : String
  supported : Bool
  des : String
deriving DecidableEq, Repr

/-- An HTTP response from `client.get`. -/
structure HttpResponse where
  status_code : Nat
  text : String
deriving DecidableEq, Repr

/-- `RemotePlugin.install`: fetch `<GIT_SOURCE><name>/main.py`; on HTTP 200
remove any existing local copy and write the body as the active file,
returning `true`; on any other status return `false` without touching disk.
`net` maps a plugin name to the response of its source download. -/
def RemotePlugin.install (p : RemotePlugin) (net : String → HttpResponse) (dir : Dir) :
    Bool × Dir :=
  let html := net p.name
  if html.status_code = 200 then
    (true, setKey (LocalPlugin.removeFiles p.name dir) (activeName p.name) html.text)
  else
    (false, dir)

/-- External state the manager mutates besides its own fields: the plugin
directory and the persisted `version.json` (`none` = file absent). -/
structure World where
  dir : Dir
  ledgerFile : Option VMap
deriving DecidableEq, Repr

/-- `PluginManager` in-memory state. -/
structure PluginManager where
  version_map : VMap
  remote_version_map : VMap
  plugins : List LocalPlugin
  remote_plugins : List RemotePlugin
deriving DecidableEq, Repr

/-- `load_local_version_map`: if `version.json` does not exist, keep the
current in-memory map; otherwise replace it with the parsed file. -/
def load_local_version_map (m : PluginManager) (w : World) : PluginManager :=
  match w.ledgerFile with
  | none => m
  | some vm => { m with version_map := vm }

/-- `save_local_version_map`: overwrite `version.json` with the whole map. -/
def save_local_version_map (m : PluginManager) (w : World) : World :=
  { w with ledgerFile := some m.version_map }

/-- Python `dict.get(name)` on a map whose stored values may be `null`:
a missing key and a stored `null` both read as `None`. -/
def dictGet (m : VMap) (name : String) : Option ℚ :=
  match m.lookup name with
  | some v => v
  | none => none

/-- `get_local_version`: `data = version_map.get(name); return float(data) if data else None`.
A missing key and a stored `null` both give `None`; a stored `0.0` is falsy,
so the result is `None` as well. -/
def get_local_version (vm : VMap) (name : String) : Option ℚ :=
  match dictGet vm name with
  | some data => if data = 0 then none else some data
  | none => none

/-- `set_local_version`: assign `version_map[name] = version` and save. -/
def set_local_version (m : PluginManager) (w : World) (name : String) (version : Option ℚ) :
    PluginManager × World :=
  let m' := { m with version_map := setKey m.version_map name version }
  (m', save_local_version_map m' w)

/-- `get_plugin_install_status`: `name in version_map` (key presence,
a stored `null` still counts). -/
def get_plugin_install_status (vm : VMap) (name : String) : Bool :=
  (vm.lookup name).isSome

/-- `get_plugin_load_status`: `os.path.exists(plugins/<name>.py)`. -/
def get_plugin_load_status (dir : Dir) (name : String) : Bool :=
  (dir.lookup (activeName name)).isSome

/-- `get_local_plugin`: first plugin in the in-memory snapshot with this name. -/
def get_local_plugin (m : PluginManager) (name : String) : Option LocalPlugin :=
  m.plugins.find? (fun x => x.name == name)

/-- `get_remote_plugin`: first catalog record with this name. -/
def get_remote_plugin (m : PluginManager) (name : String) : Option RemotePlugin :=
  m.remote_plugins.find? (fun x => x.name == name)

/-- `remove_plugin`: if the snapshot has a record, delete its files, drop the
ledger entry when present (saving the file), and return `true`;
otherwise return `false`. -/
def remove_plugin (m : PluginManager) (w : World) (name : String) :
    Bool × PluginManager × World :=
  match get_local_plugin m name with
  | some plugin =>
    let dir' := LocalPlugin.removeFiles plugin.name w.dir
    if (m.version_map.lookup name).isSome then
      let m' := { m with version_map := eraseKey m.version_map name }
      (true, m', save_local_version_map m' { w with dir := dir' })
    else
      (true, m, { w with dir := dir' })
  | none => (false, m, w)

/-- `enable_plugin`: `plugin.enable() if (plugin := get_local_plugin(name)) else False`. -/
def enable_plugin (m : PluginManager) (w : World) (name : String) : Bool × World :=
  match get_local_plugin m name with
  | some plugin =>
    let r := LocalPlugin.enable plugin.name w.dir
    (r.1, { w with dir := r.2 })
  | none => (false, w)

/-- `disable_plugin`: `plugin.disable() if (plugin := get_local_plugin(name)) else False`. -/
def disable_plugin (m : PluginManager) (w : World) (name : String) : Bool × World :=
  match get_local_plugin m name with
  | some plugin =>
    let r := LocalPlugin.disable plugin.name w.dir
    (r.1, { w with dir := r.2 })
  | none => (false, w)

/-- Python `s.endswith(t)`, modelled charwise on the code points. -/
def pyEndsWith (s t : String) : Bool := t.data.isSuffixOf s.data

/-- Python slicing `s[:-n]`: drop the last `n` characters. -/
def pyDropRight (s : String) (n : Nat) : String := ⟨s.data.take (s.data.length - n)⟩

/-- File-name to plugin-name stripping inside `load_local_plugins`:
`plugin[:-12] if plugin.endswith('.py.disabled') else plugin[:-3]`. -/
def stripPluginName (file : String) : String :=
  if pyEndsWith file ".py.disabled" then pyDropRight file 12 else pyDropRight file 3

/-- `load_local_plugins`: reload `version.json`, scan `os.listdir('plugins')`
for files ending in `.py` or `.py.disabled`, and build one record per such
file from the ledger and filesystem probes. -/
def load_local_plugins (m : PluginManager) (w : World) :
    List LocalPlugin × PluginManager :=
  let m1 := load_local_version_map m w
  let plugins :=
    (w.dir.map Prod.fst).filterMap (fun file =>
      if pyEndsWith file ".py" || pyEndsWith file ".py.disabled" then
        let name := stripPluginName file
        some { name := name
               installed := get_plugin_install_status m1.version_map name
               status := get_plugin_load_status w.dir name
               version := get_local_version m1.version_map name : LocalPlugin }
      else none)
  (plugins, { m1 with plugins := plugins })

/-- `plugin_need_update`: walrus-truthiness makes a local version of `None`
or `0.0` fall through to `False` (the explicit `== 0.0` check coincides with
the falsiness of `0.0`), and likewise a cached remote version that is
missing, `null`, or `0.0` is falsy and yields `False`; otherwise the result
is `local_version < remote_version`. -/
def plugin_need_update (vm rvm : VMap) (name : String) : Bool :=
  match get_local_version vm name with
  | some local_version =>
    if local_version = 0 then false
    else
      match dictGet rvm name with
      | some remote_version =>
        if remote_version = 0 then false
        else decide (local_version < remote_version)
      | none => false
  | none => false

/-- `install_remote_plugin`: look the name up in the cached catalog; if its
`install` succeeds, record the catalog version in the ledger and return
`true`; otherwise return `false`. -/
def install_remote_plugin (m : PluginManager) (w : World) (net : String → HttpResponse)
    (name : String) : Bool × PluginManager × World :=
  match get_remote_plugin m name with
  | some plugin =>
    let r := plugin.install net w.dir
    if r.1 then
      let s := set_local_version m { w with dir := r.2 } name plugin.version
      (true, s.1, s.2)
    else
      (false, m, { w with dir := r.2 })
  | none => (false, m, w)

/-- `update_remote_plugin`: install only when an update is needed. -/
def update_remote_plugin (m : PluginManager) (w : World) (net : String → HttpResponse)
    (name : String) : Bool × PluginManager × World :=
  if plugin_need_update m.version_map m.remote_version_map name then
    install_remote_plugin m w net name
  else
    (false, m, w)

/-- The (active file, disabled file) pair of a plugin: the state the
enable/disable renames act on. -/
def pairState (name : String) (dir : Dir) : Option String × Option String :=
  (dir.lookup (activeName name), dir.lookup (disabledName name))

/-- `enable(name)` immediately followed by `disable(name)`: the directory
that results. -/
def enableThenDisable (name : String) (dir : Dir) : Dir :=
  (LocalPlugin.disable name (LocalPlugin.enable name dir).2).2

/-! ### Association-list lemmas -/

theorem lookup_eraseKey {α : Type} (l : List (String × α)) (k k' : String) :
    (eraseKey l k).lookup k' = if k' = k then none else l.lookup k' := by
  induction l with
  | nil => simp [eraseKey]
  | cons hd tl ih =>
    obtain ⟨a, b⟩ := hd
    simp only [eraseKey, decide_not] at ih ⊢
    rw [List.filter_cons]
    by_cases hak : a = k
    · subst hak
      rw [if_neg (by simp)]
      rw [ih]
      by_cases hk : k' = a
      · simp [hk]
      · simp [hk, List.lookup_cons, beq_eq_false_iff_ne.mpr hk]
    · rw [if_pos (by simp [hak])]
      by_cases hka : k' = a
      · subst hka
        simp [List.lookup_cons, fun h => hak (h : k' = k)]
      · simp [List.lookup_cons, beq_eq_false_iff_ne.mpr hka, ih]

theorem lookup_setKey_self {α : Type} (l : List (String × α)) (k : String) (v : α) :
    (setKey l k v).lookup k = some v := by
  simp [setKey, List.lookup_cons]

theorem lookup_setKey_ne {α : Type} (l : List (String × α)) (k k' : String) (v : α)
    (h : k' ≠ k) : (setKey l k v).lookup k' = l.lookup k' := by
  simp [setKey, List.lookup_cons, beq_eq_false_iff_ne.mpr h, lookup_eraseKey, h]

theorem lookup_suppressRemove (dir : Dir) (p k : String) :
    (suppressFNF (os_remove dir p) dir).lookup k = if k = p then none else dir.lookup k := by
  unfold suppressFNF os_remove
  cases h : dir.lookup p with
  | some c => simp [lookup_eraseKey]
  | none =>
    by_cases hk : k = p
    · simp [hk, h]
    · simp [hk]

theorem lookup_removeFiles (n : String) (dir : Dir) (k : String) :
    (LocalPlugin.removeFiles n dir).lookup k =
      if k = activeName n ∨ k = disabledName n then none else dir.lookup k := by
  simp only [LocalPlugin.removeFiles]
  rw [lookup_suppressRemove, lookup_suppressRemove]
  by_cases h1 : k = disabledName n <;> by_cases h2 : k = activeName n <;> simp [h1, h2]

@[simp] theorem dictGet_of_lookup_none {m : VMap} {name : String}
    (h : m.lookup name = none) : dictGet m name = none := by
  simp [dictGet, h]

@[simp] theorem dictGet_of_lookup_some {m : VMap} {name : String} {v : Option ℚ}
    (h : m.lookup name = some v) : dictGet m name = v := by
  simp [dictGet, h]

theorem activeName_ne_disabledName (n : String) : activeName n ≠ disabledName n := by
  intro h
  have hlen := congrArg String.length h
  rw [activeName, disabledName, String.length_append, String.length_append] at hlen
  have h3 : ".py".length = 3 := rfl
  have h12 : ".py.disabled".length = 12 := rfl
  omega

/-! ### C1, C10, C3: the update policy and the zero sentinel -/

/-- C1: `plugin_need_update(name)` is false when no local version is
recorded, false when the recorded local version is exactly zero, and
otherwise — local version recorded, non-zero — it is true iff the local
version is strictly less than the cached (non-zero) remote version; it is
false when the remote version is unknown (absent from the cache), and equal
recorded local and cached remote values never yield true. -/
theorem plugin_need_update_policy (vm rvm : VMap) (name : String) :
    (vm.lookup name = none → plugin_need_update vm rvm name = false)
    ∧ (vm.lookup name = some (some 0) → plugin_need_update vm rvm name = false)
    ∧ (∀ lv rv : ℚ, vm.lookup name = some (some lv) → lv ≠ 0 →
        dictGet rvm name = some rv → rv ≠ 0 →
        (plugin_need_update vm rvm name = true ↔ lv < rv))
    ∧ (dictGet rvm name = none → plugin_need_update vm rvm name = false)
    ∧ (∀ v : Option ℚ, vm.lookup name = some v → rvm.lookup name = some v →
        plugin_need_update vm rvm name = false) := by
  refine ⟨?_, ?_, ?_, ?_, ?_⟩
  · intro h; simp [plugin_need_update, get_local_version, dictGet, h]
  · intro h; simp [plugin_need_update, get_local_version, dictGet, h]
  · intro lv rv hl hlv hr hrv
    simp [plugin_need_update, get_local_version, dictGet_of_lookup_some hl, hlv, hr, hrv]
  · intro h
    simp only [plugin_need_update]
    cases hg : get_local_version vm name with
    | none => rfl
    | some lv =>
      by_cases hlv : lv = 0 <;> simp [hlv, h]
  · intro v hl hr
    cases v with
    | none => simp [plugin_need_update, get_local_version, dictGet, hl]
    | some q =>
      by_cases hq : q = 0
      · subst hq; simp [plugin_need_update, get_local_version, dictGet, hl]
      · simp [plugin_need_update, get_local_version, dictGet, hl, hr, hq]

/-- Witness for C1: local version `1`, remote version `2` — an update is
reported. -/
theorem plugin_need_update_policy_witness :
    plugin_need_update [("a", some (1 : ℚ))] [("a", some (2 : ℚ))] "a" = true :=
  ((plugin_need_update_policy [("a", some (1 : ℚ))] [("a", some (2 : ℚ))] "a").2.2.1
      1 2 rfl (by norm_num) rfl (by norm_num)).mpr (by norm_num)

/-- C10: a cached remote version of exactly zero makes `plugin_need_update`
false whatever the local version is — the same outcome as when the remote
version is absent from the cache. -/
theorem plugin_need_update_remote_zero (vm rvm : VMap) (name : String) :
    (rvm.lookup name = some (some 0) → plugin_need_update vm rvm name = false)
    ∧ (rvm.lookup name = none → plugin_need_update vm rvm name = false) := by
  constructor <;> intro h <;>
    · simp only [plugin_need_update]
      cases hg : get_local_version vm name with
      | none => rfl
      | some lv =>
        by_cases hlv : lv = 0 <;> simp [hlv, dictGet, h]

/-- Witness for C10: remote version `0`, local version `1`. -/
theorem plugin_need_update_remote_zero_witness :
    plugin_need_update [("a", some (1 : ℚ))] [("a", some (0 : ℚ))] "a" = false :=
  (plugin_need_update_remote_zero [("a", some (1 : ℚ))] [("a", some (0 : ℚ))] "a").1 rfl

/-- Counterexample to C3: with the ledger entry `foo ↦ 0.0`,
`get_local_version "foo"` is not `some 0` — the zero value is falsy in
`float(data) if data else None`, so the function returns `None`. -/
theorem get_local_version_zero_counterexample :
    ¬ (get_local_version [("foo", some (0 : ℚ))] "foo" = some 0) := by decide

/-- C3 (amended): for a ledger entry holding exactly zero,
`get_local_version` returns `none` — through this accessor the zero sentinel
is indistinguishable from "not installed" — while the sentinel is still
distinguished from "not installed" by `get_plugin_install_status` (key
presence) and still disables updates (`plugin_need_update` is false). -/
theorem get_local_version_zero_sentinel (vm : VMap) (name : String)
    (h : vm.lookup name = some (some 0)) :
    get_local_version vm name = none
    ∧ get_plugin_install_status vm name = true
    ∧ ∀ rvm : VMap, plugin_need_update vm rvm name = false := by
  refine ⟨?_, ?_, ?_⟩
  · simp [get_local_version, h]
  · simp [get_plugin_install_status, h]
  · intro rvm; simp [plugin_need_update, get_local_version, h]

/-- Witness for the amended C3 at the ledger `foo ↦ 0.0`. -/
theorem get_local_version_zero_sentinel_witness :
    get_local_version [("foo", some (0 : ℚ))] "foo" = none
    ∧ get_plugin_install_status [("foo", some (0 : ℚ))] "foo" = true
    ∧ ∀ rvm : VMap, plugin_need_update [("foo", some (0 : ℚ))] rvm "foo" = false :=
  get_local_version_zero_sentinel [("foo", some (0 : ℚ))] "foo" rfl

/-! ### C6, C8: the File State Gateway -/

theorem enable_of_disabled_missing (name : String) (dir : Dir)
    (h : dir.lookup (disabledName name) = none) :
    LocalPlugin.enable name dir = (false, dir) := by
  simp [LocalPlugin.enable, tryBool, os_rename, h]

theorem enable_of_disabled_present (name : String) (dir : Dir) (c : String)
    (h : dir.lookup (disabledName name) = some c) :
    LocalPlugin.enable name dir =
      (true, setKey (eraseKey dir (disabledName name)) (activeName name) c) := by
  simp [LocalPlugin.enable, tryBool, os_rename, h]

theorem disable_of_active_missing (name : String) (dir : Dir)
    (h : dir.lookup (activeName name) = none) :
    LocalPlugin.disable name dir = (false, dir) := by
  simp [LocalPlugin.disable, tryBool, os_rename, h]

theorem disable_of_active_present (name : String) (dir : Dir) (c : String)
    (h : dir.lookup (activeName name) = some c) :
    LocalPlugin.disable name dir =
      (true, setKey (eraseKey dir (activeName name)) (disabledName name) c) := by
  simp [LocalPlugin.disable, tryBool, os_rename, h]

/-- Counterexample to C6: with only the active file present (`p.py` on disk,
no disabled file), `enable` fails as a no-op but `disable` then renames the
active file away, so the round trip changes the file pair. -/
theorem enable_disable_roundtrip_counterexample :
    pairState "p" (enableThenDisable "p" [("p.py", "x")]) ≠ pairState "p" [("p.py", "x")] := by
  decide

/-- C6 (amended): `enable(name)` followed by `disable(name)` restores the
active/disabled file pair provided the active file was absent initially
(the plugin disabled or absent); when the active file exists at the start,
the failed `enable` is a no-op but `disable` still moves the active file to
the disabled path, changing the pair. -/
theorem enable_disable_roundtrip (name : String) (dir : Dir)
    (h : dir.lookup (activeName name) = none) :
    pairState name (enableThenDisable name dir) = pairState name dir := by
  have hne := activeName_ne_disabledName name
  unfold enableThenDisable
  cases hd : dir.lookup (disabledName name) with
  | none =>
    rw [enable_of_disabled_missing name dir hd]
    rw [disable_of_active_missing name dir h]
  | some c =>
    rw [enable_of_disabled_present name dir c hd]
    have h1 : (setKey (eraseKey dir (disabledName name)) (activeName name) c).lookup
        (activeName name) = some c := lookup_setKey_self _ _ _
    rw [disable_of_active_present name _ c h1]
    unfold pairState
    rw [lookup_setKey_ne _ _ _ _ hne, lookup_eraseKey, if_pos rfl,
      lookup_setKey_self, h, hd]

/-- Witness for the amended C6: a disabled-only plugin survives the round
trip. -/
theorem enable_disable_roundtrip_witness :
    pairState "p" (enableThenDisable "p" [("p.py.disabled", "x")]) =
      pairState "p" [("p.py.disabled", "x")] :=
  enable_disable_roundtrip "p" [("p.py.disabled", "x")] (by decide)

/-- C8: the gateway operations are total — the wrapped rename/delete calls
convert a missing source file into a boolean failure (`enable`/`disable`
return `false` with the directory untouched) and `LocalPlugin.removeFiles`
succeeds as the identity when both forms of the file are already absent
(the `FileNotFoundError` of each delete is suppressed). -/
theorem file_gateway_total (name : String) (dir : Dir) :
    (dir.lookup (disabledName name) = none → LocalPlugin.enable name dir = (false, dir))
    ∧ (dir.lookup (activeName name) = none → LocalPlugin.disable name dir = (false, dir))
    ∧ (dir.lookup (activeName name) = none → dir.lookup (disabledName name) = none →
        LocalPlugin.removeFiles name dir = dir) := by
  refine ⟨enable_of_disabled_missing name dir, disable_of_active_missing name dir, ?_⟩
  intro ha hd
  simp [LocalPlugin.removeFiles, suppressFNF, os_remove, ha, hd]

/-- Witness for C8 on the empty directory. -/
theorem file_gateway_total_witness :
    LocalPlugin.enable "p" ([] : Dir) = (false, [])
    ∧ LocalPlugin.disable "p" ([] : Dir) = (false, [])
    ∧ LocalPlugin.removeFiles "p" ([] : Dir) = [] :=
  ⟨(file_gateway_total "p" []).1 rfl, (file_gateway_total "p" []).2.1 rfl,
    (file_gateway_total "p" []).2.2 rfl rfl⟩

/-! ### C4, C9: removal and snapshot-based name resolution -/

theorem removeFiles_of_absent (n : String) (dir : Dir)
    (ha : dir.lookup (activeName n) = none)
    (hd : dir.lookup (disabledName n) = none) :
    LocalPlugin.removeFiles n dir = dir := by
  simp [LocalPlugin.removeFiles, suppressFNF, os_remove, ha, hd]

theorem find?_name_eq {l : List LocalPlugin} {name : String} {p : LocalPlugin}
    (h : l.find? (fun x => x.name == name) = some p) : p.name = name := by
  have := List.find?_some h
  simpa using this

/-- A concrete manager snapshot holding the single installed plugin `foo`. -/
def sampleManager : PluginManager :=
  { version_map := [("foo", some 1)]
    remote_version_map := []
    plugins := [{ name := "foo", status := true, installed := true, version := some 1 }]
    remote_plugins := [] }

/-- The matching world: `foo.py` on disk and a ledger file recording it. -/
def sampleWorld : World :=
  { dir := [("foo.py", "src")], ledgerFile := some [("foo", some 1)] }

/-- Counterexample to C4: after a successful `remove_plugin("foo")`, a second
call with no intervening operations returns `true`, not `false` — the
in-memory snapshot `plugins` still lists the removed plugin because
`remove_plugin` never updates it. -/
theorem remove_plugin_second_call_counterexample :
    (remove_plugin (remove_plugin sampleManager sampleWorld "foo").2.1
        (remove_plugin sampleManager sampleWorld "foo").2.2 "foo").1 = true := by
  decide

/-- C4 (amended): for every name with a record in the snapshot,
`remove_plugin` returns `true` and afterwards neither the active file, nor
the disabled file, nor a ledger entry exists for the name; a second call on
the same name (no intervening operations) again returns `true` — the stale
snapshot still resolves the name — but raises nothing and changes nothing:
it returns the state unchanged. -/
theorem remove_plugin_spec (m : PluginManager) (w : World) (name : String)
    (p : LocalPlugin) (hp : get_local_plugin m name = some p) :
    (remove_plugin m w name).1 = true
    ∧ (remove_plugin m w name).2.2.dir.lookup (activeName name) = none
    ∧ (remove_plugin m w name).2.2.dir.lookup (disabledName name) = none
    ∧ (remove_plugin m w name).2.1.version_map.lookup name = none
    ∧ remove_plugin (remove_plugin m w name).2.1 (remove_plugin m w name).2.2 name
        = (true, (remove_plugin m w name).2.1, (remove_plugin m w name).2.2) := by
  have hpn : p.name = name := find?_name_eq hp
  have hdir : ∀ k, (LocalPlugin.removeFiles p.name w.dir).lookup k =
      if k = activeName name ∨ k = disabledName name then none else w.dir.lookup k := by
    intro k; rw [hpn, lookup_removeFiles]
  have hactive : (LocalPlugin.removeFiles p.name w.dir).lookup (activeName name) = none := by
    rw [hdir]; simp
  have hdisabled : (LocalPlugin.removeFiles p.name w.dir).lookup (disabledName name) = none := by
    rw [hdir]; simp
  have hagain : LocalPlugin.removeFiles p.name (LocalPlugin.removeFiles p.name w.dir) =
      LocalPlugin.removeFiles p.name w.dir := by
    rw [hpn] at hactive hdisabled ⊢
    exact removeFiles_of_absent name _ hactive hdisabled
  cases hvm : (m.version_map.lookup name).isSome with
  | true =>
    have hres : remove_plugin m w name =
        (true, { m with version_map := eraseKey m.version_map name },
          { dir := LocalPlugin.removeFiles p.name w.dir,
            ledgerFile := some (eraseKey m.version_map name) }) := by
      simp [remove_plugin, hp, hvm, save_local_version_map]
    have hvm' : (eraseKey m.version_map name).lookup name = none := by
      rw [lookup_eraseKey, if_pos rfl]
    have hp' : get_local_plugin
        { m with version_map := eraseKey m.version_map name } name = some p := hp
    rw [hres]
    refine ⟨rfl, hactive, hdisabled, hvm', ?_⟩
    simp [remove_plugin, hp', hagain, hvm']
  | false =>
    have hvmn : m.version_map.lookup name = none := by
      cases h : m.version_map.lookup name with
      | none => rfl
      | some v => rw [h] at hvm; simp at hvm
    have hres : remove_plugin m w name =
        (true, m, { w with dir := LocalPlugin.removeFiles p.name w.dir }) := by
      simp [remove_plugin, hp, hvm]
    rw [hres]
    refine ⟨rfl, hactive, hdisabled, hvmn, ?_⟩
    simp [remove_plugin, hp, hagain, hvmn]

/-- Witness for the amended C4 on the sample state. -/
theorem remove_plugin_spec_witness :
    (remove_plugin sampleManager sampleWorld "foo").1 = true
    ∧ (remove_plugin sampleManager sampleWorld "foo").2.2.dir.lookup (activeName "foo") = none
    ∧ (remove_plugin sampleManager sampleWorld "foo").2.2.dir.lookup (disabledName "foo") = none
    ∧ (remove_plugin sampleManager sampleWorld "foo").2.1.version_map.lookup "foo" = none
    ∧ remove_plugin (remove_plugin sampleManager sampleWorld "foo").2.1
        (remove_plugin sampleManager sampleWorld "foo").2.2 "foo"
        = (true, (remove_plugin sampleManager sampleWorld "foo").2.1,
            (remove_plugin sampleManager sampleWorld "foo").2.2) :=
  remove_plugin_spec sampleManager sampleWorld "foo"
    { name := "foo", status := true, installed := true, version := some 1 } (by decide)

/-- C9: the mutating operations resolve a name only against the in-memory
snapshot `plugins`: when no snapshot record carries the name, `enable_plugin`,
`disable_plugin` and `remove_plugin` return `false` and leave the directory,
the ledger and the manager untouched — whatever files exist on disk. -/
theorem mutating_ops_use_snapshot_only (m : PluginManager) (w : World) (name : String)
    (h : ∀ p ∈ m.plugins, p.name ≠ name) :
    enable_plugin m w name = (false, w)
    ∧ disable_plugin m w name = (false, w)
    ∧ remove_plugin m w name = (false, m, w) := by
  have hfind : get_local_plugin m name = none := by
    rw [get_local_plugin, List.find?_eq_none]
    intro p hp
    simpa using h p hp
  exact ⟨by simp [enable_plugin, hfind], by simp [disable_plugin, hfind],
    by simp [remove_plugin, hfind]⟩

/-- Witness for C9: an empty snapshot with the plugin's file on disk. -/
theorem mutating_ops_use_snapshot_only_witness :
    enable_plugin { sampleManager with plugins := [] } sampleWorld "foo" = (false, sampleWorld)
    ∧ disable_plugin { sampleManager with plugins := [] } sampleWorld "foo" = (false, sampleWorld)
    ∧ remove_plugin { sampleManager with plugins := [] } sampleWorld "foo"
        = (false, { sampleManager with plugins := [] }, sampleWorld) :=
  mutating_ops_use_snapshot_only { sampleManager with plugins := [] } sampleWorld "foo"
    (by intro p hp; simp at hp)

/-! ### C2, C7: installation from the remote catalog -/

theorem find?_remote_name_eq {l : List RemotePlugin} {name : String} {p : RemotePlugin}
    (h : l.find? (fun x => x.name == name) = some p) : p.name = name := by
  have := List.find?_some h
  simpa using this

/-- C2: when the name resolves in the cached remote catalog and
`install_remote_plugin` returns `true`, afterwards the install-status probe
is true (a ledger entry exists), the load-status probe is true (the active
file exists — it was just written), and the ledger's recorded version for
the name is exactly the catalog record's version at install time. -/
theorem install_remote_plugin_success (m : PluginManager) (w : World)
    (net : String → HttpResponse) (name : String) (p : RemotePlugin)
    (hp : get_remote_plugin m name = some p)
    (hok : (install_remote_plugin m w net name).1 = true) :
    get_plugin_install_status (install_remote_plugin m w net name).2.1.version_map name = true
    ∧ get_plugin_load_status (install_remote_plugin m w net name).2.2.dir name = true
    ∧ (install_remote_plugin m w net name).2.1.version_map.lookup name = some p.version := by
  have hpn : p.name = name := find?_remote_name_eq hp
  by_cases h200 : (net p.name).status_code = 200
  · have hres : install_remote_plugin m w net name =
        (true, { m with version_map := setKey m.version_map name p.version },
          { dir := setKey (LocalPlugin.removeFiles p.name w.dir) (activeName p.name)
              (net p.name).text,
            ledgerFile := some (setKey m.version_map name p.version) }) := by
      simp [install_remote_plugin, hp, RemotePlugin.install, h200, set_local_version,
        save_local_version_map]
    rw [hres]
    refine ⟨?_, ?_, ?_⟩
    · simp [get_plugin_install_status, lookup_setKey_self]
    · simp [get_plugin_load_status, hpn, lookup_setKey_self]
    · simp [lookup_setKey_self]
  · have hfail : (install_remote_plugin m w net name).1 = false := by
      simp [install_remote_plugin, hp, RemotePlugin.install, h200]
    rw [hok] at hfail
    cases hfail

/-- The catalog record used by the install witnesses. -/
def sampleRemote : RemotePlugin :=
  { name := "bar", status := false, installed := false, version := some 2,
    «section» := "chat", maintainer := "m", size := "1 kb", supported := true, des := "d" }

/-- A manager whose cached catalog holds `sampleRemote`. -/
def remoteManager : PluginManager :=
  { version_map := [("bar", some 1)], remote_version_map := [("bar", some 2)],
    plugins := [], remote_plugins := [sampleRemote] }

/-- A transport whose every source download succeeds with HTTP 200. -/
def net200 : String → HttpResponse := fun _ => { status_code := 200, text := "code" }

/-- A transport whose every source download fails with HTTP 404. -/
def net404 : String → HttpResponse := fun _ => { status_code := 404, text := "" }

/-- Witness for C2: installing `bar` from the sample catalog. -/
theorem install_remote_plugin_success_witness :
    get_plugin_install_status
        (install_remote_plugin remoteManager sampleWorld net200 "bar").2.1.version_map "bar" = true
    ∧ get_plugin_load_status
        (install_remote_plugin remoteManager sampleWorld net200 "bar").2.2.dir "bar" = true
    ∧ (install_remote_plugin remoteManager sampleWorld net200 "bar").2.1.version_map.lookup "bar"
        = some sampleRemote.version :=
  install_remote_plugin_success remoteManager sampleWorld net200 "bar" sampleRemote
    (by decide) (by decide)

/-- C7: when the name resolves in the cached remote catalog but the source
download comes back with a status other than 200, `install_remote_plugin`
returns `false` and the whole state — plugin directory, in-memory ledger and
persisted ledger file — is exactly what it was: nothing is written, removed
or recorded. -/
theorem install_remote_plugin_non200 (m : PluginManager) (w : World)
    (net : String → HttpResponse) (name : String) (p : RemotePlugin)
    (hp : get_remote_plugin m name = some p)
    (h200 : (net p.name).status_code ≠ 200) :
    install_remote_plugin m w net name = (false, m, w) := by
  simp [install_remote_plugin, hp, RemotePlugin.install, h200]

/-- Witness for C7: a 404 download of `bar` changes nothing. -/
theorem install_remote_plugin_non200_witness :
    install_remote_plugin remoteManager sampleWorld net404 "bar"
      = (false, remoteManager, sampleWorld) :=
  install_remote_plugin_non200 remoteManager sampleWorld net404 "bar" sampleRemote
    (by decide) (by decide)

/-! ### C5: the listLocal scenario -/

/-- C5: with the plugin directory holding exactly `foo.py` (no ledger entry)
and `bar.py.disabled` (ledger entry `bar ↦ 1.0`) — in either directory
order — `load_local_plugins` returns exactly the two records
`foo : status=true, installed=false, version absent` and
`bar : status=false, installed=true, version=1.0`. -/
theorem load_local_plugins_scenario (c₁ c₂ : String) (m : PluginManager) (w : World)
    (hw : w = { dir := [("foo.py", c₁), ("bar.py.disabled", c₂)],
                ledgerFile := some [("bar", some 1)] }
        ∨ w = { dir := [("bar.py.disabled", c₂), ("foo.py", c₁)],
                ledgerFile := some [("bar", some 1)] }) :
    (load_local_plugins m w).1.Perm
      [ { name := "foo", status := true, installed := false, version := none },
        { name := "bar", status := false, installed := true, version := some 1 } ] := by
  rcases hw with rfl | rfl
  · have h : (load_local_plugins m
        { dir := [("foo.py", c₁), ("bar.py.disabled", c₂)],
          ledgerFile := some [("bar", some 1)] }).1
        = [ { name := "foo", status := true, installed := false, version := none },
            { name := "bar", status := false, installed := true, version := some 1 } ] := rfl
    rw [h]
  · have h : (load_local_plugins m
        { dir := [("bar.py.disabled", c₂), ("foo.py", c₁)],
          ledgerFile := some [("bar", some 1)] }).1
        = [ { name := "bar", status := false, installed := true, version := some 1 },
            { name := "foo", status := true, installed := false, version := none } ] := rfl
    rw [h]
    exact List.Perm.swap _ _ _

/-- Witness for C5 at concrete file contents and the first directory order. -/
theorem load_local_plugins_scenario_witness :
    (load_local_plugins sampleManager
        { dir := [("foo.py", "a"), ("bar.py.disabled", "b")],
          ledgerFile := some [("bar", some 1)] }).1.Perm
      [ { name := "foo", status := true, installed := false, version := none },
        { name := "bar", status := false, installed := true, version := some 1 } ] :=
  load_local_plugins_scenario "a" "b" sampleManager
    { dir := [("foo.py", "a"), ("bar.py.disabled", "b")],
      ledgerFile := some [("bar", some 1)] } (Or.inl rfl)

end PagerMaid
